import Mathlib

/-!
Shallow embedding of the kosyncsrv reading-progress sync server
(`kosyncsrv.go` together with its database layer).  Pure Go functions
become Lean functions; the global sqlite database becomes an explicit
`Store` value threaded through the operations; the server clock
(`time.Now().Unix()`) becomes an explicit `Int` parameter; fallible
database reads return `Except`.  Machine `int64` timestamps are modelled
as `Int` (no arithmetic near the 64-bit bound occurs in any operation),
and `float64` percentages are modelled as `Rat` (the core only copies
percentage values, it never computes with them).
-/

namespace Kosync

/-- Wire/handler error descriptor, mirroring Go `errorResponse`
{Status, Code, Message}. -/
structure errorResponse where
  status : Nat
  code : Nat
  message : String
deriving DecidableEq, Repr

def InvalidHeader : errorResponse := ⟨400, 100, "Invalid Header"⟩

def InvalidAcceptHeader : errorResponse := ⟨412, 101, "Invalid Accept header format."⟩

def UnknownServerError : errorResponse := ⟨500, 500, "Unknown server error."⟩

def Unauthorized : errorResponse := ⟨401, 2001, "Unauthorized"⟩

def UsernameAlreadyRegistered : errorResponse := ⟨403, 2002, "Username is already registered."⟩

def InvalidRequest : errorResponse := ⟨403, 2003, "Invalid Request"⟩

def DocumentIdNotProvided : errorResponse := ⟨403, 2004, "Field \x27document\x27 not provided."⟩

/-- Go helper type `stringOrInt`: progress normalized to a string. -/
structure stringOrInt where
  inner : String
deriving DecidableEq, Repr

/-- The subset of JSON values relevant to the `progress` field on the
wire: an integral JSON number, a JSON string, or anything else. -/
inductive JsonVal where
  | jint (n : Int)
  | jstr (s : String)
  | jother
deriving DecidableEq, Repr

/-- Go `stringOrInt.UnmarshalJSON`: first try decoding an int
(`strconv.Itoa` turns it into its decimal string), then a string;
otherwise fail. -/
def stringOrInt.unmarshalJSON (b : JsonVal) : Except Unit stringOrInt :=
  match b with
  | .jint n => .ok ⟨toString n⟩
  | .jstr s => .ok ⟨s⟩
  | .jother => .error ()

/-- Go `stringOrInt.MarshalJSON`: always encodes the inner value as a
JSON string. -/
def stringOrInt.marshalJSON (s : stringOrInt) : JsonVal :=
  .jstr s.inner

/-- Go `requestUser` (register body). -/
structure requestUser where
  username : String
  password : String
deriving DecidableEq, Repr

/-- Go `requestHeader` (accept + the two identity headers). -/
structure requestHeader where
  accept : String
  authUser : String
  authKey : String
deriving DecidableEq, Repr

/-- Go `requestPosition` (push body / pull reply). -/
structure requestPosition where
  timestamp : Int
  documentID : String
  progress : stringOrInt
  device : String
  percentage : Rat
  deviceID : String
deriving DecidableEq, Repr

/-- Go `replyPosition` (push reply). -/
structure replyPosition where
  timestamp : Int
  documentID : String
deriving DecidableEq, Repr

/-- Row of the `user` table. -/
structure dbUser where
  username : String
  password : String
deriving DecidableEq, Repr

/-- Row of the `document` table. -/
structure dbDocument where
  username : String
  documentid : String
  percentage : Rat
  progress : String
  device : String
  device_id : String
  timestamp : Int
deriving DecidableEq, Repr

/-- The sqlite database: the `user` table and the `document` table, in
row-insertion order.  The part_003 schema declares no uniqueness
constraint on either table, so both are plain row lists. -/
structure Store where
  users : List dbUser
  documents : List dbDocument
deriving DecidableEq, Repr

def emptyStore : Store := ⟨[], []⟩

/-- Literal `schemaUser` SQL string from part_003. -/
def schemaUser : String :=
  "CREATE TABLE IF NOT EXISTS \x22user\x22 (\n\t\x22username\x22  TEXT(255),\n\t\x22password\x22  TEXT(255)\n);"

/-- Literal `schemaDocument` SQL string from part_003. -/
def schemaDocument : String :=
  "CREATE TABLE IF NOT EXISTS \x22document\x22 (\n\t\x22username\x22  TEXT(255),\n\t\x22documentid\x22  TEXT(255),\n\t\x22percentage\x22  REAL(64,4),\n\t\x22progress\x22  TEXT(255),\n\t\x22device\x22  TEXT(255),\n\t\x22device_id\x22  TEXT(255),\n\t\x22timestamp\x22  INTEGER\n);"

/-- Go `getDBUser`: `SELECT * FROM user WHERE username=$1` via `db.Get`
returns the first matching row, or the zero-value row with
`norows = true` when no row matches. -/
def getDBUser (s : Store) (username : String) : dbUser × Bool :=
  match s.users.find? (fun u => u.username == username) with
  | some u => (u, false)
  | none => (⟨"", ""⟩, true)

/-- Read phase of Go `addDBUser`: the `getDBUser` existence check. -/
def addDBUserRead (s : Store) (username : String) : Bool :=
  (getDBUser s username).2

/-- Write phase of Go `addDBUser`: insert the row only if the earlier
read reported no existing row. -/
def addDBUserWrite (s : Store) (username password : String) (norows : Bool) :
    Store × Bool :=
  if norows then
    (⟨s.users ++ [⟨username, password⟩], s.documents⟩, true)
  else
    (s, false)

/-- Go `addDBUser`: check for an existing row with `getDBUser`, then
INSERT if none was found.  A read-then-write sequence, not an atomic
constrained insert. -/
def addDBUser (s : Store) (username password : String) : Store × Bool :=
  addDBUserWrite s username password (addDBUserRead s username)

/-- WHERE clause `username=:user AND documentid=:docid` on the document
table. -/
def matchKey (u d : String) (r : dbDocument) : Bool :=
  r.username == u && r.documentid == d

/-- Go `existDoc`: `SELECT * FROM document WHERE username=$1 AND
documentid=$2` — true iff some row matches. -/
def existDoc (s : Store) (username docid : String) : Bool :=
  s.documents.any (matchKey username docid)

/-- Effect of the UPDATE statement in `updateDBdocument` on one matching
row: overwrite percentage, progress, device, device_id, timestamp; the
key columns are untouched. -/
def overwriteRow (rPos : requestPosition) (nowtime : Int) (r : dbDocument) :
    dbDocument :=
  ⟨r.username, r.documentid, rPos.percentage, rPos.progress.inner,
    rPos.device, rPos.deviceID, nowtime⟩

/-- Row built by the INSERT statement in `updateDBdocument`. -/
def newRow (username : String) (rPos : requestPosition) (nowtime : Int) :
    dbDocument :=
  ⟨username, rPos.documentID, rPos.percentage, rPos.progress.inner,
    rPos.device, rPos.deviceID, nowtime⟩

/-- Write phase of Go `updateDBdocument`: given the result of the
`existDoc` read, either UPDATE every row matching the key or INSERT a
fresh row; either way stamp with the server time. -/
def updateDBdocumentWrite (s : Store) (username : String)
    (rPos : requestPosition) (nowtime : Int) (found : Bool) : Store × Int :=
  if found then
    (⟨s.users,
      s.documents.map (fun r =>
        if matchKey username rPos.documentID r then overwriteRow rPos nowtime r
        else r)⟩, nowtime)
  else
    (⟨s.users, s.documents ++ [newRow username rPos nowtime]⟩, nowtime)

/-- Go `updateDBdocument`: take the server clock reading, check
`existDoc`, then UPDATE or INSERT.  The client-supplied
`rPos.Timestamp` is never read.  A read-then-branch-then-write
sequence, not an atomic upsert. -/
def updateDBdocument (s : Store) (username : String) (rPos : requestPosition)
    (nowtime : Int) : Store × Int :=
  updateDBdocumentWrite s username rPos nowtime
    (existDoc s username rPos.documentID)

/-- Database read errors distinguishable by the Go code: `sql.ErrNoRows`
versus any other storage-layer failure. -/
inductive DBErr where
  | noRows
  | otherError
deriving DecidableEq, Repr

/-- First row of the result set ordered by `timestamp DESC` (what
`db.Get` on the ordered SELECT returns): a row of maximal timestamp. -/
def pickLatest : List dbDocument → Option dbDocument
  | [] => none
  | r :: rs =>
      some (rs.foldl (fun best x =>
        if best.timestamp < x.timestamp then x else best) r)

/-- Go `getDBPosition`: `SELECT * FROM document WHERE username=$1 AND
documentid=$2 ORDER BY timestamp DESC` via `db.Get`; on a hit, copy the
row into a `requestPosition` whose DocumentID is the queried id. -/
def getDBPosition (s : Store) (username documentid : String) :
    Except DBErr requestPosition :=
  match pickLatest (s.documents.filter (matchKey username documentid)) with
  | none => .error .noRows
  | some r =>
      .ok ⟨r.timestamp, documentid, ⟨r.progress⟩, r.device, r.percentage,
        r.device_id⟩

/-- Go `validKeyField`: non-empty and free of the `:` delimiter
(`strings.Contains(field, ":")` for the one-character needle is exactly
containment of the character in the string's character list). -/
def validKeyField (field : String) : Bool :=
  field.length > 0 && !(field.data.contains ':')

/-- Outcome of the register handler. -/
inductive RegisterResult where
  | created (username : String)
  | error (e : errorResponse)
deriving DecidableEq, Repr

/-- Go `register` handler: `none` models a body that fails
`ShouldBindJSON`.  Validates non-emptiness of both fields, then calls
`addDBUser`; a duplicate yields `UsernameAlreadyRegistered`. -/
def register (s : Store) (body : Option requestUser) : Store × RegisterResult :=
  match body with
  | none => (s, .error InvalidRequest)
  | some rUser =>
      if rUser.username == "" || rUser.password == "" then
        (s, .error InvalidRequest)
      else
        let r := addDBUser s rUser.username rUser.password
        if r.2 then (r.1, .created rUser.username)
        else (r.1, .error UsernameAlreadyRegistered)

/-- Go `AuthRequired` middleware: the gate checks `validKeyField` on the
claimed user and non-emptiness of the key, looks the user up, and
compares the presented key with the stored password; every failure path
reports the same `Unauthorized` error. -/
def AuthRequired (s : Store) (h : requestHeader) : Except errorResponse String :=
  if validKeyField h.authUser && decide (h.authKey.length > 0) then
    let r := getDBUser s h.authUser
    if !r.2 && h.authKey == r.1.password then
      .ok h.authUser
    else
      .error Unauthorized
  else
    .error Unauthorized

/-- Outcome of the pull handler: 200 with an empty JSON object, 200 with
the stored position, or an error response. -/
inductive PullResult where
  | emptyObject
  | position (p : requestPosition)
  | error (e : errorResponse)
deriving DecidableEq, Repr

/-- HTTP status of a pull outcome as rendered by the handler and the
error middleware. -/
def pullStatus : PullResult → Nat
  | .emptyObject => 200
  | .position _ => 200
  | .error e => e.status

/-- The branch of Go `getProgress` that consumes the result of
`getDBPosition`: any error — `sql.ErrNoRows` or otherwise — is rendered
as HTTP 200 with an empty object; a hit is rendered as HTTP 200 with
the position. -/
def getProgressHandle (res : Except DBErr requestPosition) : PullResult :=
  match res with
  | .error _ => .emptyObject
  | .ok p => .position p

/-- Go `getProgress` handler: `none` models a URI that fails
`ShouldBindUri` (yielding `UnknownServerError`); otherwise query the
store and render. -/
def getProgress (s : Store) (username : String) (rDocid : Option String) :
    PullResult :=
  match rDocid with
  | none => .error UnknownServerError
  | some docid => getProgressHandle (getDBPosition s username docid)

/-- Outcome of the push handler. -/
inductive PushResult where
  | reply (r : replyPosition)
  | error (e : errorResponse)
deriving DecidableEq, Repr

/-- Go `updateProgress` handler: `none` models a body failing
`ShouldBindJSON`; then documentId is checked with `validKeyField`
(else `DocumentIdNotProvided`), then progress and device non-emptiness
(else `InvalidRequest`); on success `updateDBdocument` runs at the
server clock reading `nowtime` and its timestamp is echoed. -/
def updateProgress (s : Store) (username : String)
    (body : Option requestPosition) (nowtime : Int) : Store × PushResult :=
  match body with
  | none => (s, .error InvalidRequest)
  | some rPos =>
      if !validKeyField rPos.documentID then
        (s, .error DocumentIdNotProvided)
      else if rPos.progress.inner == "" || rPos.device == "" then
        (s, .error InvalidRequest)
      else
        let r := updateDBdocument s username rPos nowtime
        (r.1, .reply ⟨r.2, rPos.documentID⟩)

/-- Outcome of the probe-auth handler. -/
inductive ProbeResult where
  | authorizedOK
  | error (e : errorResponse)
deriving DecidableEq, Repr

/-- `GET /users/auth` behind the `AuthRequired` middleware. -/
def authedProbe (s : Store) (h : requestHeader) : ProbeResult :=
  match AuthRequired s h with
  | .error e => .error e
  | .ok _ => .authorizedOK

/-- `GET /syncs/progress/:document` behind the middleware. -/
def authedGetProgress (s : Store) (h : requestHeader) (rDocid : Option String) :
    PullResult :=
  match AuthRequired s h with
  | .error e => .error e
  | .ok username => getProgress s username rDocid

/-- `PUT /syncs/progress` behind the middleware. -/
def authedUpdateProgress (s : Store) (h : requestHeader)
    (body : Option requestPosition) (nowtime : Int) : Store × PushResult :=
  match AuthRequired s h with
  | .error e => (s, .error e)
  | .ok username => updateProgress s username body nowtime

/-- `db.Get` lookup of a user row, as an `Option` (first row wins). -/
def lookupUser (s : Store) (username : String) : Option dbUser :=
  s.users.find? (fun u => u.username == username)

/-- Store invariant claimed for the document table: at most one row per
(username, documentid) key. -/
def atMostOnePerKey (s : Store) : Prop :=
  ∀ u d, (s.documents.filter (matchKey u d)).length ≤ 1

/-- Interleaving of two concurrent `addDBUser` calls for the same
username in which both `getDBUser` reads happen before either INSERT. -/
def racedRegister (s : Store) (u p1 p2 : String) : Store :=
  let n1 := addDBUserRead s u
  let n2 := addDBUserRead s u
  let s1 := (addDBUserWrite s u p1 n1).1
  (addDBUserWrite s1 u p2 n2).1

/-- Interleaving of two concurrent `updateDBdocument` calls for the same
key in which both `existDoc` reads happen before either write. -/
def racedPush (s : Store) (u : String) (rp1 rp2 : requestPosition)
    (t1 t2 : Int) : Store :=
  let e1 := existDoc s u rp1.documentID
  let e2 := existDoc s u rp2.documentID
  let s1 := (updateDBdocumentWrite s u rp1 t1 e1).1
  (updateDBdocumentWrite s1 u rp2 t2 e2).1

/-- The same push payload with the client-supplied timestamp field
replaced, all other fields untouched. -/
def withTimestamp (rPos : requestPosition) (a : Int) : requestPosition :=
  ⟨a, rPos.documentID, rPos.progress, rPos.device, rPos.percentage,
    rPos.deviceID⟩

/-- End-to-end progress round trip used by the wire-format claims:
decode the progress wire value, push it for (alice, bookA), pull it
back, and re-encode the progress field. -/
def progressRoundTrip (wire : JsonVal) : Option JsonVal :=
  match stringOrInt.unmarshalJSON wire with
  | .error _ => none
  | .ok prog =>
      let rPos : requestPosition := ⟨0, "bookA", prog, "phone", 0, "dev1"⟩
      let s1 := (updateProgress emptyStore "alice" (some rPos) 100).1
      match getProgress s1 "alice" (some "bookA") with
      | .position p => some (stringOrInt.marshalJSON p.progress)
      | _ => none

/-! Helper lemmas about the document table. -/

theorem matchKey_overwrite (u d : String) (rPos : requestPosition) (t : Int)
    (r : dbDocument) : matchKey u d (overwriteRow rPos t r) = matchKey u d r := rfl

theorem filter_map_overwrite (u d : String) (rPos : requestPosition) (t : Int)
    (l : List dbDocument) :
    (l.map (fun r => if matchKey u d r then overwriteRow rPos t r else r)).filter
        (matchKey u d)
      = (l.filter (matchKey u d)).map (overwriteRow rPos t) := by
  induction l with
  | nil => rfl
  | cons hd tl ih =>
      cases hmk : matchKey u d hd <;>
        simp [List.filter_cons, hmk, matchKey_overwrite, ih]

theorem filter_map_overwrite_other (u d u2 d2 : String) (rPos : requestPosition)
    (t : Int) (l : List dbDocument) (hne : ¬(u2 = u ∧ d2 = d)) :
    (l.map (fun r => if matchKey u d r then overwriteRow rPos t r else r)).filter
        (matchKey u2 d2)
      = l.filter (matchKey u2 d2) := by
  induction l with
  | nil => rfl
  | cons hd tl ih =>
      cases hmk : matchKey u d hd
      · simp [List.filter_cons, hmk, ih]
      · have h2 : matchKey u2 d2 hd = false := by
          cases h2m : matchKey u2 d2 hd
          · rfl
          · exfalso
            apply hne
            simp [matchKey, Bool.and_eq_true, beq_iff_eq] at hmk h2m
            exact ⟨h2m.1.symm.trans hmk.1, h2m.2.symm.trans hmk.2⟩
        simp [List.filter_cons, hmk, h2, matchKey_overwrite, ih]

theorem existDoc_false_filter (s : Store) (u d : String)
    (h : existDoc s u d = false) : s.documents.filter (matchKey u d) = [] := by
  simp only [existDoc] at h
  rw [List.filter_eq_nil_iff]
  intro r hr hmk
  have hco : s.documents.any (matchKey u d) = true := List.any_eq_true.2 ⟨r, hr, hmk⟩
  rw [h] at hco
  cases hco

theorem existDoc_true_filter (s : Store) (u d : String)
    (h : existDoc s u d = true) : s.documents.filter (matchKey u d) ≠ [] := by
  simp only [existDoc, List.any_eq_true] at h
  obtain ⟨r, hr, hmk⟩ := h
  intro hnil
  have hmem : r ∈ s.documents.filter (matchKey u d) := List.mem_filter.2 ⟨hr, hmk⟩
  rw [hnil] at hmem
  cases hmem

theorem matchKey_newRow (u : String) (rPos : requestPosition) (t : Int) :
    matchKey u rPos.documentID (newRow u rPos t) = true := by
  simp [matchKey, newRow]

theorem updateDBdocument_filter_self (s : Store) (u : String)
    (rPos : requestPosition) (t : Int)
    (hinv : (s.documents.filter (matchKey u rPos.documentID)).length ≤ 1) :
    (updateDBdocument s u rPos t).1.documents.filter (matchKey u rPos.documentID)
      = [newRow u rPos t] := by
  unfold updateDBdocument updateDBdocumentWrite
  cases hex : existDoc s u rPos.documentID with
  | false =>
      simp only [Bool.false_eq_true, if_false]
      rw [List.filter_append, existDoc_false_filter s u rPos.documentID hex]
      simp [List.filter_cons, matchKey_newRow]
  | true =>
      simp only [if_true]
      rw [filter_map_overwrite]
      have hne := existDoc_true_filter s u rPos.documentID hex
      rcases hl : s.documents.filter (matchKey u rPos.documentID) with _ | ⟨r, rest⟩
      · exact absurd hl hne
      · rcases rest with _ | ⟨r2, rest2⟩
        · have hmem : r ∈ s.documents.filter (matchKey u rPos.documentID) := by
            rw [hl]; exact List.mem_cons_self r []
          have hr := (List.mem_filter.1 hmem).2
          simp only [matchKey, Bool.and_eq_true, beq_iff_eq] at hr
          simp [overwriteRow, newRow, hr.1, hr.2]
        · rw [hl] at hinv
          simp at hinv

theorem updateDBdocument_filter_other (s : Store) (u : String)
    (rPos : requestPosition) (t : Int) (u2 d2 : String)
    (hne : ¬(u2 = u ∧ d2 = rPos.documentID)) :
    (updateDBdocument s u rPos t).1.documents.filter (matchKey u2 d2)
      = s.documents.filter (matchKey u2 d2) := by
  unfold updateDBdocument updateDBdocumentWrite
  cases hex : existDoc s u rPos.documentID with
  | false =>
      simp only [Bool.false_eq_true, if_false]
      rw [List.filter_append]
      have hnr : matchKey u2 d2 (newRow u rPos t) = false := by
        cases hmk : matchKey u2 d2 (newRow u rPos t)
        · rfl
        · exfalso
          apply hne
          simp [matchKey, newRow, Bool.and_eq_true, beq_iff_eq] at hmk
          exact ⟨hmk.1.symm, hmk.2.symm⟩
      simp [List.filter_cons, hnr]
  | true =>
      simp only [if_true]
      exact filter_map_overwrite_other u rPos.documentID u2 d2 rPos t
        s.documents hne

theorem updateDBdocument_timestamp (s : Store) (u : String)
    (rPos : requestPosition) (t : Int) :
    ∀ r ∈ (updateDBdocument s u rPos t).1.documents.filter
        (matchKey u rPos.documentID), r.timestamp = t := by
  unfold updateDBdocument updateDBdocumentWrite
  cases hex : existDoc s u rPos.documentID with
  | false =>
      intro r hr
      simp only [Bool.false_eq_true, if_false] at hr
      rw [List.filter_append, existDoc_false_filter s u rPos.documentID hex] at hr
      simp [List.filter_cons, matchKey_newRow] at hr
      rw [hr]
      rfl
  | true =>
      intro r hr
      simp only [if_true] at hr
      rw [filter_map_overwrite] at hr
      obtain ⟨x, _, rfl⟩ := List.mem_map.1 hr
      rfl

theorem updateDBdocument_preserves (s : Store) (u : String)
    (rPos : requestPosition) (t : Int) (hinv : atMostOnePerKey s) :
    atMostOnePerKey (updateDBdocument s u rPos t).1 := by
  intro u2 d2
  by_cases hk : u2 = u ∧ d2 = rPos.documentID
  · rcases hk with ⟨rfl, rfl⟩
    rw [updateDBdocument_filter_self s u2 rPos t (hinv u2 rPos.documentID)]
    simp
  · rw [updateDBdocument_filter_other s u rPos t u2 d2 hk]
    exact hinv u2 d2

theorem updateDBdocument_snd (s : Store) (u : String) (rPos : requestPosition)
    (t : Int) : (updateDBdocument s u rPos t).2 = t := by
  unfold updateDBdocument updateDBdocumentWrite
  cases existDoc s u rPos.documentID <;> rfl

theorem getDBPosition_single (s : Store) (u d : String) (r : dbDocument)
    (h : s.documents.filter (matchKey u d) = [r]) :
    getDBPosition s u d
      = .ok ⟨r.timestamp, d, ⟨r.progress⟩, r.device, r.percentage, r.device_id⟩ := by
  unfold getDBPosition
  rw [h]
  rfl

theorem getDBPosition_empty (s : Store) (u d : String)
    (h : s.documents.filter (matchKey u d) = []) :
    getDBPosition s u d = .error .noRows := by
  unfold getDBPosition
  rw [h]
  rfl

/-! Helper lemmas about the user table and the handlers. -/

theorem getDBUser_lookup (s : Store) (u : String) :
    getDBUser s u = match lookupUser s u with
      | some c => (c, false)
      | none => (⟨"", ""⟩, true) := rfl

theorem string_length_pos (f : String) : 0 < f.length ↔ f ≠ "" := by
  cases f with
  | mk data => cases data <;> simp [String.length, String.ext_iff]

theorem contains_char_iff (l : List Char) (c : Char) :
    l.contains c = true ↔ c ∈ l := List.elem_iff

theorem validKeyField_iff (f : String) :
    validKeyField f = true ↔ f ≠ "" ∧ ':' ∉ f.data := by
  unfold validKeyField
  rw [Bool.and_eq_true, decide_eq_true_eq, Bool.not_eq_true']
  constructor
  · rintro ⟨h1, h2⟩
    refine ⟨(string_length_pos f).1 h1, fun hmem => ?_⟩
    rw [(contains_char_iff f.data ':').2 hmem] at h2
    cases h2
  · rintro ⟨h1, h2⟩
    refine ⟨(string_length_pos f).2 h1, ?_⟩
    cases hc : f.data.contains ':'
    · rfl
    · exact absurd ((contains_char_iff f.data ':').1 hc) h2

theorem authRequired_eq_some (s : Store) (h : requestHeader) (cred : dbUser)
    (hlk : lookupUser s h.authUser = some cred) :
    AuthRequired s h =
      if validKeyField h.authUser && decide (h.authKey.length > 0) then
        if h.authKey == cred.password then .ok h.authUser
        else .error Unauthorized
      else .error Unauthorized := by
  unfold AuthRequired
  rw [getDBUser_lookup, hlk]
  simp

theorem authRequired_eq_none (s : Store) (h : requestHeader)
    (hlk : lookupUser s h.authUser = none) :
    AuthRequired s h = .error Unauthorized := by
  unfold AuthRequired
  rw [getDBUser_lookup, hlk]
  simp

theorem authRequired_error_eq (s : Store) (h : requestHeader) (e : errorResponse)
    (he : AuthRequired s h = .error e) : e = Unauthorized := by
  cases hlk : lookupUser s h.authUser with
  | none =>
      rw [authRequired_eq_none s h hlk] at he
      exact (Except.error.inj he).symm
  | some cred =>
      rw [authRequired_eq_some s h cred hlk] at he
      by_cases hg : (validKeyField h.authUser && decide (h.authKey.length > 0)) = true
      · rw [if_pos hg] at he
        by_cases hk : (h.authKey == cred.password) = true
        · rw [if_pos hk] at he
          cases he
        · rw [if_neg hk] at he
          exact (Except.error.inj he).symm
      · rw [if_neg hg] at he
        exact (Except.error.inj he).symm

theorem updateProgress_success (s : Store) (u : String) (rPos : requestPosition)
    (now : Int) (hval : validKeyField rPos.documentID = true)
    (hprog : (rPos.progress.inner == "") = false)
    (hdev : (rPos.device == "") = false) :
    updateProgress s u (some rPos) now
      = ((updateDBdocument s u rPos now).1, .reply ⟨now, rPos.documentID⟩) := by
  simp [updateProgress, hval, hprog, hdev, updateDBdocument_snd]

theorem atMostOne_empty : atMostOnePerKey emptyStore := by
  unfold atMostOnePerKey
  intro u d
  simp [emptyStore]

/-! Claim theorems. -/

/-- C1: starting from any store with at most one position row per
(username, documentId) key, two pushes for the same key keep the
invariant, and a pull afterwards returns exactly the second payload's
progress, device, percentage and deviceId with the second push's server
timestamp, which is at least the first push's timestamp when the clock
is monotone between the writes. -/
theorem position_upsert_overwrites (s : Store) (u : String)
    (p1 p2 : requestPosition) (t1 t2 : Int)
    (hdoc : p1.documentID = p2.documentID) (hts : t1 ≤ t2)
    (hinv : atMostOnePerKey s) :
    atMostOnePerKey (updateDBdocument (updateDBdocument s u p1 t1).1 u p2 t2).1 ∧
    getDBPosition (updateDBdocument (updateDBdocument s u p1 t1).1 u p2 t2).1
        u p1.documentID
      = .ok ⟨t2, p1.documentID, p2.progress, p2.device, p2.percentage,
          p2.deviceID⟩ ∧
    t1 ≤ t2 := by
  have hinv1 := updateDBdocument_preserves s u p1 t1 hinv
  have hinv2 := updateDBdocument_preserves _ u p2 t2 hinv1
  refine ⟨hinv2, ?_, hts⟩
  rw [hdoc]
  have hf := updateDBdocument_filter_self (updateDBdocument s u p1 t1).1 u p2 t2
    (hinv1 u p2.documentID)
  rw [getDBPosition_single _ u p2.documentID _ hf]
  rfl

/-- Witness for C1: push "10"/phone then "20"/tablet for (alice, bookA)
into the empty store; the pull returns the second payload at the second
server time. -/
theorem position_upsert_overwrites_witness :
    getDBPosition (updateDBdocument (updateDBdocument emptyStore "alice"
          ⟨7, "bookA", ⟨"10"⟩, "phone", 0, "d1"⟩ 100).1 "alice"
          ⟨3, "bookA", ⟨"20"⟩, "tablet", 1, "d2"⟩ 101).1 "alice" "bookA"
      = .ok ⟨101, "bookA", ⟨"20"⟩, "tablet", 1, "d2"⟩ :=
  (position_upsert_overwrites emptyStore "alice"
      ⟨7, "bookA", ⟨"10"⟩, "phone", 0, "d1"⟩
      ⟨3, "bookA", ⟨"20"⟩, "tablet", 1, "d2"⟩ 100 101 rfl (by decide)
      atMostOne_empty).2.1

/-- C2: the gate authorizes exactly when the claimed username is
non-empty and colon-free, the key is non-empty, a credential row exists
for that username, and the key equals its stored password; every failure
is reported as the single Unauthorized error. -/
theorem auth_gate_iff (s : Store) (h : requestHeader) :
    (AuthRequired s h = .ok h.authUser ↔
      (h.authUser ≠ "" ∧ ':' ∉ h.authUser.data ∧ h.authKey ≠ "" ∧
        ∃ cred, lookupUser s h.authUser = some cred ∧
          h.authKey = cred.password)) ∧
    ∀ e, AuthRequired s h = .error e → e = Unauthorized := by
  refine ⟨?_, fun e he => authRequired_error_eq s h e he⟩
  cases hlk : lookupUser s h.authUser with
  | none =>
      rw [authRequired_eq_none s h hlk]
      constructor
      · intro he
        cases he
      · rintro ⟨-, -, -, cred, hc, -⟩
        cases hc
  | some cred =>
      rw [authRequired_eq_some s h cred hlk]
      constructor
      · intro he
        by_cases hg :
            (validKeyField h.authUser && decide (h.authKey.length > 0)) = true
        · rw [if_pos hg] at he
          by_cases hk : (h.authKey == cred.password) = true
          · rw [Bool.and_eq_true, decide_eq_true_eq] at hg
            obtain ⟨hv, hklen⟩ := hg
            obtain ⟨hne, hnc⟩ := (validKeyField_iff h.authUser).1 hv
            exact ⟨hne, hnc, (string_length_pos h.authKey).1 hklen,
              cred, rfl, beq_iff_eq.1 hk⟩
          · rw [if_neg hk] at he
            cases he
        · rw [if_neg hg] at he
          cases he
      · rintro ⟨hne, hnc, hkne, cred2, hc2, hkey⟩
        injection hc2 with hc2
        subst hc2
        have hg :
            (validKeyField h.authUser && decide (h.authKey.length > 0)) = true := by
          rw [Bool.and_eq_true, decide_eq_true_eq]
          exact ⟨(validKeyField_iff h.authUser).2 ⟨hne, hnc⟩,
            (string_length_pos h.authKey).2 hkne⟩
        rw [if_pos hg, if_pos (show (h.authKey == cred.password) = true by
          rw [beq_iff_eq]; exact hkey)]

/-- Witness for C2: correct credentials are authorized. -/
theorem auth_gate_iff_witness :
    AuthRequired ⟨[⟨"alice", "s3cret"⟩], []⟩
        ⟨"application/vnd.koreader.v1+json", "alice", "s3cret"⟩ = .ok "alice" :=
  (auth_gate_iff ⟨[⟨"alice", "s3cret"⟩], []⟩
      ⟨"application/vnd.koreader.v1+json", "alice", "s3cret"⟩).1.mpr
    ⟨by decide, by decide, by decide, ⟨"alice", "s3cret"⟩, rfl, rfl⟩

/-- C3: a successful push stores and echoes the server clock reading;
the client-supplied timestamp field influences neither the stored rows
nor the response. -/
theorem server_timestamp_authoritative (s : Store) (u : String)
    (rPos : requestPosition) (a b now : Int)
    (hval : validKeyField rPos.documentID = true)
    (hprog : (rPos.progress.inner == "") = false)
    (hdev : (rPos.device == "") = false) :
    updateProgress s u (some (withTimestamp rPos a)) now
      = updateProgress s u (some (withTimestamp rPos b)) now ∧
    (updateProgress s u (some rPos) now).2 = .reply ⟨now, rPos.documentID⟩ ∧
    ∀ r ∈ (updateProgress s u (some rPos) now).1.documents.filter
        (matchKey u rPos.documentID), r.timestamp = now := by
  refine ⟨rfl, ?_, ?_⟩
  · rw [updateProgress_success s u rPos now hval hprog hdev]
  · rw [updateProgress_success s u rPos now hval hprog hdev]
    exact updateDBdocument_timestamp s u rPos now

/-- Witness for C3: two pushes differing only in the client timestamp
behave identically. -/
theorem server_timestamp_authoritative_witness :
    updateProgress emptyStore "alice"
        (some (withTimestamp ⟨7, "bookA", ⟨"10"⟩, "phone", 0, "d1"⟩ 11)) 100
      = updateProgress emptyStore "alice"
        (some (withTimestamp ⟨7, "bookA", ⟨"10"⟩, "phone", 0, "d1"⟩ 99)) 100 :=
  (server_timestamp_authoritative emptyStore "alice"
      ⟨7, "bookA", ⟨"10"⟩, "phone", 0, "d1"⟩ 11 99 100
      (by decide) (by decide) (by decide)).1

/-- C4 (amended): a pull for a key with no stored row returns the
empty-result marker with HTTP 200, and the handler renders every
database read failure — not-found or otherwise — as that same
empty-result 200 marker. -/
theorem pull_missing_and_failure_empty (s : Store) (u d : String)
    (hnone : s.documents.filter (matchKey u d) = []) :
    getProgress s u (some d) = .emptyObject ∧
    pullStatus (getProgress s u (some d)) = 200 ∧
    ∀ e : DBErr, getProgressHandle (.error e) = .emptyObject := by
  have h1 : getProgress s u (some d) = .emptyObject := by
    show getProgressHandle (getDBPosition s u d) = .emptyObject
    rw [getDBPosition_empty s u d hnone]
    rfl
  refine ⟨h1, ?_, fun e => rfl⟩
  rw [h1]
  rfl

/-- Witness for C4: pulling a never-pushed key from the empty store. -/
theorem pull_missing_witness :
    getProgress emptyStore "alice" (some "bookA") = .emptyObject :=
  (pull_missing_and_failure_empty emptyStore "alice" "bookA" rfl).1

/-- C4 counterexample: a storage failure that is not the not-found
condition is rendered as the empty-result 200 marker, identical to the
never-pushed result and distinct from the InternalError response, so it
is not surfaced to the caller as InternalError. -/
theorem pull_failure_counterexample :
    getProgressHandle (.error .otherError) = .emptyObject ∧
    pullStatus (getProgressHandle (.error .otherError)) = 200 ∧
    ¬ getProgressHandle (.error .otherError) = .error UnknownServerError := by
  refine ⟨rfl, rfl, ?_⟩
  intro h
  cases h

theorem register_fresh (s : Store) (u p : String)
    (hu : (u == "") = false) (hp : (p == "") = false)
    (hfresh : lookupUser s u = none) :
    register s (some ⟨u, p⟩)
      = (⟨s.users ++ [⟨u, p⟩], s.documents⟩, .created u) := by
  simp [register, hu, hp, addDBUser, addDBUserRead, addDBUserWrite,
    getDBUser_lookup, hfresh]

theorem register_existing (s : Store) (u p : String) (cred : dbUser)
    (hu : (u == "") = false) (hp : (p == "") = false)
    (hlk : lookupUser s u = some cred) :
    register s (some ⟨u, p⟩) = (s, .error UsernameAlreadyRegistered) := by
  simp [register, hu, hp, addDBUser, addDBUserRead, addDBUserWrite,
    getDBUser_lookup, hlk]

theorem lookupUser_after_insert (s : Store) (u p : String)
    (hfresh : lookupUser s u = none) :
    lookupUser ⟨s.users ++ [⟨u, p⟩], s.documents⟩ u = some ⟨u, p⟩ := by
  unfold lookupUser at *
  rw [List.find?_append, hfresh]
  simp

/-- C5: progress round-trips as a string: the numeric wire value 42
pushed then pulled comes back as the JSON string "42" (re-encoded
identically), the string "p7" comes back unchanged, and in general
decoding normalizes both wire shapes to a string while output is always
encoded as a JSON string. -/
theorem progress_string_round_trip :
    progressRoundTrip (.jint 42) = some (.jstr "42") ∧
    progressRoundTrip (.jstr "p7") = some (.jstr "p7") ∧
    (∀ n : Int, stringOrInt.unmarshalJSON (.jint n) = .ok ⟨toString n⟩) ∧
    (∀ str : String, stringOrInt.unmarshalJSON (.jstr str) = .ok ⟨str⟩) ∧
    (∀ v : stringOrInt, stringOrInt.marshalJSON v = .jstr v.inner) :=
  ⟨by decide, by decide, fun n => rfl, fun str => rfl, fun v => rfl⟩

/-- C6: a second register for the same username fails with
UsernameAlreadyRegistered, leaves the credential store unchanged, and
the stored password remains the first one. -/
theorem register_duplicate_unchanged (s : Store) (u p1 p2 : String)
    (hu : (u == "") = false) (hp1 : (p1 == "") = false)
    (hp2 : (p2 == "") = false) (hfresh : lookupUser s u = none) :
    (register s (some ⟨u, p1⟩)).2 = .created u ∧
    (register (register s (some ⟨u, p1⟩)).1 (some ⟨u, p2⟩)).2
        = .error UsernameAlreadyRegistered ∧
    (register (register s (some ⟨u, p1⟩)).1 (some ⟨u, p2⟩)).1
        = (register s (some ⟨u, p1⟩)).1 ∧
    lookupUser (register (register s (some ⟨u, p1⟩)).1 (some ⟨u, p2⟩)).1 u
        = some ⟨u, p1⟩ := by
  have h1 := register_fresh s u p1 hu hp1 hfresh
  have hlk1 := lookupUser_after_insert s u p1 hfresh
  rw [h1]
  have h2 := register_existing ⟨s.users ++ [⟨u, p1⟩], s.documents⟩ u p2
    ⟨u, p1⟩ hu hp2 hlk1
  rw [h2]
  exact ⟨rfl, rfl, rfl, hlk1⟩

/-- Witness for C6 at concrete inputs. -/
theorem register_duplicate_unchanged_witness :
    (register (register emptyStore (some ⟨"alice", "s3cret"⟩)).1
        (some ⟨"alice", "other"⟩)).2 = .error UsernameAlreadyRegistered ∧
    lookupUser (register (register emptyStore (some ⟨"alice", "s3cret"⟩)).1
        (some ⟨"alice", "other"⟩)).1 "alice" = some ⟨"alice", "s3cret"⟩ :=
  ⟨(register_duplicate_unchanged emptyStore "alice" "s3cret" "other"
      (by decide) (by decide) (by decide) rfl).2.1,
    (register_duplicate_unchanged emptyStore "alice" "s3cret" "other"
      (by decide) (by decide) (by decide) rfl).2.2.2⟩

/-- C7: push validation short-circuits in order: an invalid documentId
(empty or containing the colon delimiter) yields DocumentIdNotProvided
even when progress and device are also invalid; with a valid documentId
an empty progress or device yields InvalidRequest; in both cases the
store is unchanged. -/
theorem push_validation_order (s : Store) (u : String)
    (rPos : requestPosition) (now : Int) :
    (validKeyField rPos.documentID = false →
      updateProgress s u (some rPos) now = (s, .error DocumentIdNotProvided)) ∧
    (validKeyField rPos.documentID = true →
      (rPos.progress.inner == "" || rPos.device == "") = true →
      updateProgress s u (some rPos) now = (s, .error InvalidRequest)) := by
  constructor
  · intro hv
    simp [updateProgress, hv]
  · intro hv hpd
    simp [updateProgress, hv, hpd]

/-- Witness for C7: a colon documentId with empty progress and device
yields DocumentIdNotProvided, and a valid documentId with empty progress
and device yields InvalidRequest, the store untouched. -/
theorem push_validation_order_witness :
    updateProgress emptyStore "alice" (some ⟨0, "a:b", ⟨""⟩, "", 0, ""⟩) 5
      = (emptyStore, .error DocumentIdNotProvided) ∧
    updateProgress emptyStore "alice" (some ⟨0, "bookA", ⟨""⟩, "", 0, ""⟩) 5
      = (emptyStore, .error InvalidRequest) :=
  ⟨(push_validation_order emptyStore "alice" ⟨0, "a:b", ⟨""⟩, "", 0, ""⟩ 5).1
      (by decide),
    (push_validation_order emptyStore "alice" ⟨0, "bookA", ⟨""⟩, "", 0, ""⟩ 5).2
      (by decide) (by decide)⟩

/-- C8: any two authentication failures — wrong key for an existing
user, unknown user, or any other reason — carry the identical
Unauthorized error: same value, status, code and message. -/
theorem unauthorized_uniform (s1 s2 : Store) (h1 h2 : requestHeader)
    (e1 e2 : errorResponse)
    (hf1 : AuthRequired s1 h1 = .error e1)
    (hf2 : AuthRequired s2 h2 = .error e2) :
    e1 = e2 ∧ e1.status = e2.status ∧ e1.code = e2.code ∧
    e1.message = e2.message ∧ e1 = Unauthorized := by
  have he1 := authRequired_error_eq s1 h1 e1 hf1
  have he2 := authRequired_error_eq s2 h2 e2 hf2
  subst he1
  subst he2
  exact ⟨rfl, rfl, rfl, rfl, rfl⟩

/-- Witness for C8: wrong key for the existing user alice versus the
nonexistent user bob, both against the same store. -/
theorem unauthorized_uniform_witness :
    Unauthorized = Unauthorized ∧ Unauthorized.status = Unauthorized.status ∧
    Unauthorized.code = Unauthorized.code ∧
    Unauthorized.message = Unauthorized.message ∧ Unauthorized = Unauthorized :=
  unauthorized_uniform ⟨[⟨"alice", "s3cret"⟩], []⟩ ⟨[⟨"alice", "s3cret"⟩], []⟩
    ⟨"acc", "alice", "wrong"⟩ ⟨"acc", "bob", "s3cret"⟩ Unauthorized Unauthorized
    rfl rfl

/-- C9 (amended): the part_003 store operations are read-then-write
sequences, not atomic constrained writes: addDBUser is exactly its
getDBUser read followed by a conditional INSERT, and updateDBdocument
is exactly its existDoc read followed by an UPDATE-or-INSERT; when the
reads of two concurrent duplicate registers (or of two pushes to the
same absent key) both precede the writes, the store ends with two rows
for the same key. -/
theorem storage_ops_not_atomic (s : Store) (u p1 p2 : String)
    (rp1 rp2 : requestPosition) (t1 t2 : Int)
    (hU : lookupUser s u = none)
    (hdoc : rp1.documentID = rp2.documentID)
    (hD : existDoc s u rp2.documentID = false) :
    (∀ (st : Store) (un pw : String),
      addDBUser st un pw = addDBUserWrite st un pw (addDBUserRead st un)) ∧
    (∀ (st : Store) (un : String) (rp : requestPosition) (t : Int),
      updateDBdocument st un rp t
        = updateDBdocumentWrite st un rp t (existDoc st un rp.documentID)) ∧
    ((racedRegister s u p1 p2).users.filter
        (fun c => c.username == u)).length = 2 ∧
    ((racedPush s u rp1 rp2 t1 t2).documents.filter
        (matchKey u rp2.documentID)).length = 2 := by
  refine ⟨fun st un pw => rfl, fun st un rp t => rfl, ?_, ?_⟩
  · have hread : addDBUserRead s u = true := by
      unfold addDBUserRead
      rw [getDBUser_lookup, hU]
    unfold racedRegister
    rw [hread]
    unfold addDBUserWrite
    have hnil : s.users.filter (fun c => c.username == u) = [] := by
      rw [List.filter_eq_nil_iff]
      intro c hc
      exact List.find?_eq_none.1 hU c hc
    simp [List.filter_append, hnil]
  · have h1 : existDoc s u rp1.documentID = false := by
      rw [hdoc]
      exact hD
    unfold racedPush
    rw [h1, hD]
    unfold updateDBdocumentWrite
    have hnil : s.documents.filter (matchKey u rp2.documentID) = [] :=
      existDoc_false_filter s u rp2.documentID hD
    have hm1 : matchKey u rp2.documentID (newRow u rp1 t1) = true := by
      simp [matchKey, newRow, hdoc]
    simp [List.filter_append, hnil, List.filter_cons, hm1,
      matchKey_newRow u rp2 t2]

/-- Witness for C9's amended statement at concrete inputs. -/
theorem storage_ops_not_atomic_witness :
    ((racedRegister emptyStore "alice" "p1" "p2").users.filter
        (fun c => c.username == "alice")).length = 2 :=
  (storage_ops_not_atomic emptyStore "alice" "p1" "p2"
      ⟨0, "bookA", ⟨"10"⟩, "phone", 0, "d1"⟩
      ⟨0, "bookA", ⟨"20"⟩, "tablet", 0, "d2"⟩ 10 11 rfl rfl rfl).2.2.1

/-- C9 counterexample: concretely, two raced duplicate registers leave
two credential rows for alice, and two raced pushes to the absent key
(alice, bookA) leave two position rows for that key — the claimed
impossibility of duplicate rows under concurrency fails for this
read-then-write code. -/
theorem storage_race_counterexample :
    (racedRegister emptyStore "alice" "p1" "p2").users
        = [⟨"alice", "p1"⟩, ⟨"alice", "p2"⟩] ∧
    ((racedPush emptyStore "alice" ⟨0, "bookA", ⟨"10"⟩, "phone", 0, "d1"⟩
          ⟨0, "bookA", ⟨"20"⟩, "tablet", 0, "d2"⟩ 10 11).documents.filter
        (matchKey "alice" "bookA")).length = 2 := by
  constructor
  · rfl
  · rfl

/-- C10: register checks only non-emptiness, so a username containing
the colon delimiter registers successfully and its credential row is
stored; yet the gate rejects that username whatever key is presented,
so probe-auth, pull and push all answer Unauthorized forever. -/
theorem colon_username_registered_unusable (s : Store) (u p : String)
    (hu : (u == "") = false) (hp : (p == "") = false)
    (hc : ':' ∈ u.data)
    (hfresh : lookupUser s u = none) :
    (register s (some ⟨u, p⟩)).2 = .created u ∧
    lookupUser (register s (some ⟨u, p⟩)).1 u = some ⟨u, p⟩ ∧
    ∀ (s2 : Store) (acc key : String),
      AuthRequired s2 ⟨acc, u, key⟩ = .error Unauthorized ∧
      authedProbe s2 ⟨acc, u, key⟩ = .error Unauthorized ∧
      (∀ rDocid, authedGetProgress s2 ⟨acc, u, key⟩ rDocid
          = .error Unauthorized) ∧
      (∀ body now, authedUpdateProgress s2 ⟨acc, u, key⟩ body now
          = (s2, .error Unauthorized)) := by
  have hvk : validKeyField u = false := by
    cases hv : validKeyField u
    · rfl
    · obtain ⟨-, hnc⟩ := (validKeyField_iff u).1 hv
      exact absurd hc hnc
  have hauth : ∀ (s2 : Store) (acc key : String),
      AuthRequired s2 ⟨acc, u, key⟩ = .error Unauthorized := by
    intro s2 acc key
    unfold AuthRequired
    simp [hvk]
  refine ⟨?_, ?_, fun s2 acc key => ⟨hauth s2 acc key, ?_, ?_, ?_⟩⟩
  · rw [register_fresh s u p hu hp hfresh]
  · rw [register_fresh s u p hu hp hfresh]
    exact lookupUser_after_insert s u p hfresh
  · unfold authedProbe
    rw [hauth s2 acc key]
  · intro rDocid
    unfold authedGetProgress
    rw [hauth s2 acc key]
  · intro body now
    unfold authedUpdateProgress
    rw [hauth s2 acc key]

/-- Witness for C10: "a:b" registers, then even the correct password is
rejected by the gate. -/
theorem colon_username_registered_unusable_witness :
    (register emptyStore (some ⟨"a:b", "pw"⟩)).2 = .created "a:b" ∧
    AuthRequired (register emptyStore (some ⟨"a:b", "pw"⟩)).1
        ⟨"acc", "a:b", "pw"⟩ = .error Unauthorized :=
  ⟨(colon_username_registered_unusable emptyStore "a:b" "pw"
      (by decide) (by decide) (by decide) rfl).1,
    ((colon_username_registered_unusable emptyStore "a:b" "pw"
      (by decide) (by decide) (by decide) rfl).2.2
      (register emptyStore (some ⟨"a:b", "pw"⟩)).1 "acc" "pw").1⟩

end Kosync
